import Mathlib

/-!
Shallow embedding of the maptiler-3d-js core (Layer3D, Item3D, WebGLRenderManager,
utils) and proofs about the behaviour its specification describes.

Numeric quantities (altitudes, elevations, scales, coordinates) are modelled over
the integers; the rotation matrices of the transform pipeline are modelled over
the reals.  JavaScript Map objects are modelled as association lists with the
insertion-order semantics of Map.set / Map.delete / Map.get.
-/

/-- Altitude reference of an item: relative to terrain or to mean sea level
(src/types.ts, enum AltitudeReference). -/
inductive AltitudeReference
  | GROUND
  | MEAN_SEA_LEVEL
deriving DecidableEq, Repr

/-- Up-axis convention of the source asset (src/types.ts, enum SourceOrientation). -/
inductive SourceOrientation
  | X_UP
  | Y_UP
  | Z_UP
deriving DecidableEq, Repr

/-- A geographic position, longitude and latitude (the LngLat of the map SDK). -/
structure LngLat where
  lng : ℤ
  lat : ℤ
deriving DecidableEq, Repr

/-- Lookup in a JavaScript Map modelled as an association list (Map.get). -/
def jsMapGet {α : Type} : List (String × α) → String → Option α
  | [], _ => none
  | p :: rest, k => if p.1 = k then some p.2 else jsMapGet rest k

/-- Key-presence test on a JavaScript Map (Map.has). -/
def jsMapHas {α : Type} (m : List (String × α)) (k : String) : Bool :=
  (jsMapGet m k).isSome

/-- Insertion into a JavaScript Map: overwrite in place when the key exists,
append otherwise (Map.set). -/
def jsMapSet {α : Type} : List (String × α) → String → α → List (String × α)
  | [], k, v => [(k, v)]
  | p :: rest, k, v => if p.1 = k then (k, v) :: rest else p :: jsMapSet rest k v

/-- Deletion from a JavaScript Map (Map.delete). -/
def jsMapDelete {α : Type} : List (String × α) → String → List (String × α)
  | [], _ => []
  | p :: rest, k => if p.1 = k then rest else p :: jsMapDelete rest k

theorem jsMapGet_none_not_mem {α : Type} {m : List (String × α)} {k : String}
    (h : jsMapGet m k = none) : k ∉ m.map Prod.fst := by
  induction m with
  | nil => simp
  | cons p rest ih =>
    simp only [jsMapGet] at h
    by_cases hk : p.1 = k
    · simp [hk] at h
    · simp only [hk, if_false] at h
      simp only [List.map_cons, List.mem_cons]
      rintro (h1 | h2)
      · exact hk h1.symm
      · exact ih h h2

theorem jsMapSet_keys {α : Type} (m : List (String × α)) (k : String) (v : α) :
    (jsMapSet m k v).map Prod.fst =
      if k ∈ m.map Prod.fst then m.map Prod.fst else m.map Prod.fst ++ [k] := by
  induction m with
  | nil => simp [jsMapSet]
  | cons p rest ih =>
    by_cases hk : p.1 = k
    · subst hk
      simp [jsMapSet]
    · simp only [jsMapSet, hk, if_false, List.map_cons, ih]
      by_cases hmem : k ∈ rest.map Prod.fst
      · simp [hmem, Ne.symm hk]
      · simp [hmem, Ne.symm hk]

theorem jsMapSet_keys_nodup {α : Type} {m : List (String × α)} {k : String}
    (v : α) (hn : (m.map Prod.fst).Nodup) :
    ((jsMapSet m k v).map Prod.fst).Nodup := by
  rw [jsMapSet_keys]
  by_cases hmem : k ∈ m.map Prod.fst
  · simpa [hmem] using hn
  · rw [if_neg hmem]
    refine List.Nodup.append hn (List.nodup_singleton k) ?_
    intro a ha hb
    simp only [List.mem_singleton] at hb
    subst hb
    exact hmem ha

/-! ## Pointer hit-testing and hover events (WebGLRenderManager.handleMouseMove) -/

/-- A raycast intersection; only the identity of the backing object matters for
the hover state machine, so the object is represented by a numeric identity. -/
structure RaycastHit where
  object : ℕ
deriving DecidableEq, Repr

/-- The two hover events dispatched by the pointer-move state machine. -/
inductive MouseEventKind
  | mouseenter
  | mouseleave
deriving DecidableEq, Repr

/-- An event dispatched to the owning item of an object. -/
structure MouseEvent where
  kind : MouseEventKind
  object : ℕ
deriving DecidableEq, Repr

/-- WebGLRenderManager.handleMouseMove: iterates the registered layers; for each
layer it raycasts into its scene, returns early when nothing changed, otherwise
fires a single event (mouseleave when an intersection was recorded, mouseenter
otherwise) and records the new nearest intersection.  The state is the recorded
`currentRaycastIntersection`; each layer contributes its ordered intersection
list. -/
def handleMouseMove : Option RaycastHit → List (List RaycastHit) →
    List MouseEvent × Option RaycastHit
  | current, [] => ([], current)
  | current, intersections :: rest =>
    if intersections.head?.isNone ∧ current.isNone then ([], current)
    else if current.map RaycastHit.object = intersections.head?.map RaycastHit.object then
      ([], current)
    else
      let hit := (current.orElse fun _ => intersections.head?).getD ⟨0⟩
      let kind := if current.isSome then MouseEventKind.mouseleave
                  else MouseEventKind.mouseenter
      let next := handleMouseMove intersections.head? rest
      (⟨kind, hit.object⟩ :: next.1, next.2)

/-- The per-move behaviour the code actually implements, for a single scene:
no event when the nearest object is unchanged, mouseenter on none to object,
mouseleave on object to none, and mouseleave alone on object to
different-object (the mouseenter for the new object is not fired in that
move). -/
def handleMouseMoveActual (current : Option RaycastHit) (intersections : List RaycastHit) :
    List MouseEvent × Option RaycastHit :=
  match current, intersections.head? with
  | none, none => ([], none)
  | none, some b => ([⟨MouseEventKind.mouseenter, b.object⟩], some b)
  | some a, none => ([⟨MouseEventKind.mouseleave, a.object⟩], none)
  | some a, some b =>
    if a.object = b.object then ([], some a)
    else ([⟨MouseEventKind.mouseleave, a.object⟩], some b)

/-- C2 (counterexample): with a recorded intersection on object 1 and a move whose
nearest intersection is a different object 2, the code fires only mouseleave on
object 1; contrary to the claim, no mouseenter is fired for object 2 in that
same move. -/
theorem c2_mouseenter_not_fired_counterexample :
    (handleMouseMove (some ⟨1⟩) [[⟨2⟩]]).1 = [⟨MouseEventKind.mouseleave, 1⟩] ∧
    (⟨MouseEventKind.mouseenter, 2⟩ : MouseEvent) ∉ (handleMouseMove (some ⟨1⟩) [[⟨2⟩]]).1 ∧
    (handleMouseMove (some ⟨1⟩) [[⟨2⟩]]).2 = some ⟨2⟩ := by
  refine ⟨rfl, ?_, rfl⟩
  decide

/-- C2 (amended): on every pointer-move over a single scene, if the nearest
intersected object is unchanged no event fires; none to object fires mouseenter
on the new object; object to none fires mouseleave on the previous object; and
object to different-object fires only mouseleave on the previous object, with
no mouseenter for the new object in that move (it is recorded as current, so a
later move does not fire it either). -/
theorem c2_pointer_move_state_machine
    (current : Option RaycastHit) (intersections : List RaycastHit) :
    handleMouseMove current [intersections] =
      handleMouseMoveActual current intersections := by
  rcases current with _ | a <;> rcases h : intersections.head? with _ | b <;>
    simp only [handleMouseMove, handleMouseMoveActual, h]
  · simp
  · simp [handleMouseMove]
  · simp [handleMouseMove]
  · by_cases hobj : a.object = b.object
    · simp [hobj]
    · simp [hobj, handleMouseMove]

/-! ## Named UI states (Item3D state stack, src/Item3D.ts) -/

/-- The names a UI state can have (src/types.ts, Item3DMeshUIStateName). -/
inductive StateName
  | default
  | hover
  | active
deriving DecidableEq, Repr

/-- The property names a UI state may override
(src/types.ts, item3DStatePropertiesNames).  Each name is mapped by
item3DSetStatePropertyToMethodMap to a dedicated setter, e.g. opacity to
setOpacity, scale to setRelativeScale, lngLat to setLngLat. -/
inductive StateProp
  | opacity
  | scale
  | transform
  | heading
  | altitude
  | lngLat
  | wireframe
  | pointSize
  | elevation
deriving DecidableEq, Repr

/-- A JavaScript object key as it occurs in the state-merging code: either one
of the nine state property names, or a numeric index key contributed when
Object.assign receives an array (such as the [name, props] pair built in
commitActiveState). -/
inductive JSKey
  | prop (p : StateProp)
  | arrayIdx (n : ℕ)
deriving DecidableEq

/-- A JavaScript value stored under such a key: a property value, a state name
(element 0 of the [name, props] pair) or a props object (element 1 of it). -/
inductive JSVal (V : Type)
  | v (x : V)
  | str (s : StateName)
  | propsObj (f : StateProp → Option V)

/-- A JavaScript object, as a partial map from keys to values. -/
def JSObj (V : Type) : Type := JSKey → Option (JSVal V)

/-- Object.assign(acc, src): keys of src win over keys of acc. -/
def objectAssign {V : Type} (acc src : JSObj V) : JSObj V :=
  fun k => (src k).orElse fun _ => acc k

/-- The empty object literal. -/
def emptyJSObj {V : Type} : JSObj V := fun _ => none

/-- A props object viewed as a JavaScript object: it only populates property
keys. -/
def liftStateProps {V : Type} (props : StateProp → Option V) : JSObj V :=
  fun k => match k with
  | .prop p => (props p).map .v
  | _ => none

/-- The two-element array [name, props] built by commitActiveState, viewed as a
JavaScript object: Object.assign copies its index keys 0 and 1, not the
property keys of props. -/
def statePairArray {V : Type} (name : StateName) (props : StateProp → Option V) : JSObj V :=
  fun k => match k with
  | .arrayIdx 0 => some (.str name)
  | .arrayIdx 1 => some (.propsObj props)
  | _ => none

/-- The mutable state of Item3D that the UI-state machinery reads and writes:
the active-states list, the registered states (currentStates, name to props)
and the instance properties indexed by the nine state property names (scale
standing for the relative scale that setRelativeScale mutates). -/
structure UIStateModel (V : Type) where
  activeStates : List StateName
  currentStates : StateName → StateProp → Option V
  item : StateProp → V

/-- Item3D.addActiveState: push the name onto the list unless already present. -/
def addActiveState (as : List StateName) (name : StateName) : List StateName :=
  if name ∈ as then as else as ++ [name]

/-- Item3D.removeActiveState: filter the name out of the list. -/
def removeActiveState (as : List StateName) (name : StateName) : List StateName :=
  as.filter (fun state => state ≠ name)

/-- commitActiveState (Item3D.addItem3DStateChangeHandler): push the state
name, build sumOfAllStatesProps by reducing over the active states, where each
step is Object.assign(acc, [name, props-of-name], props) — the array
contributes only its index keys — and dispatch every property key with a
defined value through the property-to-setter table. -/
def commitActiveState {V : Type} (m : UIStateModel V) (name : StateName)
    (props : StateProp → Option V) : UIStateModel V :=
  let as := addActiveState m.activeStates name
  let sumOfAllStatesProps : JSObj V :=
    (as.map (fun n => statePairArray n (m.currentStates n))).foldl
      (fun acc stateProps => objectAssign (objectAssign acc stateProps) (liftStateProps props))
      emptyJSObj
  let item := fun p =>
    match sumOfAllStatesProps (.prop p) with
    | some (.v x) => x
    | _ => m.item p
  { m with activeStates := as, item := item }

/-- commitInactiveState (Item3D.addItem3DStateChangeHandler): remove the state
name, merge the props of the remaining active states in list order with
Object.assign (later entries win) and dispatch every property through the
property-to-setter table. -/
def commitInactiveState {V : Type} (m : UIStateModel V) (name : StateName) :
    UIStateModel V :=
  let as := removeActiveState m.activeStates name
  let sumOfAllStates : StateProp → Option V :=
    (as.map (fun n => m.currentStates n)).foldl
      (fun acc stateProps => fun p => (stateProps p).orElse fun _ => acc p)
      (fun _ => none)
  let item := fun p =>
    match sumOfAllStates p with
    | some x => x
    | none => m.item p
  { m with activeStates := as, item := item }

/-- Modelled from the spec: the merged property set that the claim says state
activation applies — fold, in list order, each active state's stored property
overrides on top of a base, with later entries winning. -/
def specActiveStatesMerged {V : Type} (m : UIStateModel V) (name : StateName) :
    StateProp → Option V :=
  (addActiveState m.activeStates name).foldl
    (fun acc n => fun p => (m.currentStates n p).orElse fun _ => acc p)
    (fun _ => none)

theorem addActiveState_ne_nil (as : List StateName) (name : StateName) :
    addActiveState as name ≠ [] := by
  unfold addActiveState
  split
  · exact List.ne_nil_of_mem (by assumption)
  · simp

theorem commitActive_fold_prop {V : Type} (cs : StateName → StateProp → Option V)
    (props : StateProp → Option V) (p : StateProp) :
    ∀ (ns : List StateName) (acc : JSObj V), ns ≠ [] →
      ((ns.map fun n => statePairArray n (cs n)).foldl
        (fun acc stateProps =>
          objectAssign (objectAssign acc stateProps) (liftStateProps props))
        acc) (.prop p)
      = ((props p).map JSVal.v).orElse fun _ => acc (.prop p) := by
  intro ns
  induction ns with
  | nil => intro acc h; exact absurd rfl h
  | cons n ns ih =>
    intro acc _
    rcases hns : ns with _ | ⟨n2, ns2⟩
    · show (objectAssign (objectAssign acc (statePairArray n (cs n)))
        (liftStateProps props)) (.prop p) = _
      simp only [objectAssign, liftStateProps, statePairArray]
      cases props p <;> simp [Option.orElse]
    · subst hns
      rw [List.map_cons, List.foldl_cons, ih _ (by simp)]
      simp only [objectAssign, liftStateProps, statePairArray]
      cases props p <;> simp [Option.orElse]

/-- C3 (amended): activating a named UI state pushes its name onto the
active-states list only if not already present, but the property set it then
dispatches through the property-to-setter table is exactly the activating
state's own stored overrides: the fold built in commitActiveState assigns the
[name, props] pair as an array, whose index keys 0 and 1 match no setter, and
re-assigns the activating state's props at every fold step, so the stored
overrides of the other active states are not re-dispatched. -/
theorem c3_active_state_dispatch {V : Type} (m : UIStateModel V) (name : StateName)
    (props : StateProp → Option V) :
    (commitActiveState m name props).activeStates = addActiveState m.activeStates name ∧
    ∀ p, (commitActiveState m name props).item p = (props p).getD (m.item p) := by
  refine ⟨rfl, fun p => ?_⟩
  show (match
      ((addActiveState m.activeStates name).map
          (fun n => statePairArray n (m.currentStates n))).foldl
        (fun acc stateProps =>
          objectAssign (objectAssign acc stateProps) (liftStateProps props))
        emptyJSObj (.prop p) with
    | some (.v x) => x
    | _ => m.item p) = (props p).getD (m.item p)
  rw [commitActive_fold_prop m.currentStates props p _ emptyJSObj
    (addActiveState_ne_nil m.activeStates name)]
  cases props p <;> simp [Option.orElse, emptyJSObj]

/-- Machine used in the counterexample for C3: the default state stores an
opacity override, the hover state stores only a scale override, and the item
currently has opacity 0. -/
def c3Machine : UIStateModel ℤ where
  activeStates := [.default]
  currentStates := fun n =>
    match n with
    | .default => fun p => match p with | .opacity => some 1 | _ => none
    | .hover => fun p => match p with | .scale => some 2 | _ => none
    | .active => fun _ => none
  item := fun _ => 0

/-- The stored overrides of the hover state of c3Machine, as captured by its
state-change handler. -/
def c3HoverProps : StateProp → Option ℤ :=
  fun p => match p with | .scale => some 2 | _ => none

/-- C3 (counterexample): activating hover on c3Machine should, per the claim,
fold default and hover overrides and dispatch opacity 1 through setOpacity;
the code dispatches only the hover overrides, leaving opacity at 0. -/
theorem c3_merged_fold_counterexample :
    (commitActiveState c3Machine .hover c3HoverProps).item .opacity = 0 ∧
    (specActiveStatesMerged c3Machine .hover .opacity).getD (c3Machine.item .opacity) = 1 ∧
    (commitActiveState c3Machine .hover c3HoverProps).item .opacity ≠
      (specActiveStatesMerged c3Machine .hover .opacity).getD (c3Machine.item .opacity) := by
  decide

/-- Machine used for C4: states default has scale 1, hover has scale 2, active
has scale 3, and the item starts at scale 1. -/
def c4Machine : UIStateModel ℤ where
  activeStates := [.default]
  currentStates := fun n =>
    match n with
    | .default => fun p => match p with | .scale => some 1 | _ => none
    | .hover => fun p => match p with | .scale => some 2 | _ => none
    | .active => fun p => match p with | .scale => some 3 | _ => none
  item := fun p => match p with | .scale => 1 | _ => 0

/-- C4: deactivating a UI state removes its name from the active-states list
and reapplies the merged property set of the remaining active states: with
default scale 1, hover scale 2, active scale 3, activating hover then active
and then deactivating active leaves the item at scale 2 (the hover value),
not 1. -/
theorem c4_state_restoration :
    (commitInactiveState
        (commitActiveState (commitActiveState c4Machine .hover (c4Machine.currentStates .hover))
          .active (c4Machine.currentStates .active))
        .active).activeStates = [.default, .hover] ∧
    (commitInactiveState
        (commitActiveState (commitActiveState c4Machine .hover (c4Machine.currentStates .hover))
          .active (c4Machine.currentStates .active))
        .active).item .scale = 2 ∧
    (commitInactiveState
        (commitActiveState (commitActiveState c4Machine .hover (c4Machine.currentStates .hover))
          .active (c4Machine.currentStates .active))
        .active).item .scale ≠ 1 := by
  decide

/-! ## Layer3D: item registry, render-pass altitude resolution, mesh mutation -/

/-- The scene-graph object backing an item, reduced to the state the layer
mutates: the visibility flag and the uniform material state that the traverse
helpers (setMeshOpacity, setMeshPointSize, setMeshWireframe) write to every
material of the subtree. -/
structure MeshObject where
  visible : Bool
  materialOpacity : ℤ
  materialTransparent : Bool
  materialPointSize : ℤ
  materialWireframe : Bool
deriving DecidableEq, Repr

/-- An entry of the Layer3D item registry (src/Layer3D.ts, type Item3D).  The
additional transformation matrix is kept abstract in the type parameter M and
produced by the function standing for getTransformationMatrix. -/
structure LayerItem (M : Type) where
  id : String
  mesh : Option MeshObject
  lngLat : LngLat
  altitude : ℤ
  scale : ℤ
  heading : ℤ
  sourceOrientation : SourceOrientation
  altitudeReference : AltitudeReference
  elevation : ℤ
  opacity : ℤ
  pointSize : ℤ
  wireframe : Bool
  additionalTransformationMatrix : M
deriving DecidableEq

/-- The altitude resolution performed for each item inside Layer3D.prepareRender:
for a GROUND item the stored elevation is resampled when terrain is animating
(isElevationNeedUpdate) and added to the raw altitude; for a MEAN_SEA_LEVEL
item the raw altitude is used.  Returns the updated item and the model altitude
passed to getMatrixForModel. -/
def prepareRenderItemAltitude {M : Type} (isElevationNeedUpdate : Bool)
    (queryTerrainElevation : LngLat → Option ℤ) (item : LayerItem M) :
    LayerItem M × ℤ :=
  if item.altitudeReference = AltitudeReference.GROUND then
    let elevation :=
      if isElevationNeedUpdate then (queryTerrainElevation item.lngLat).getD 0
      else item.elevation
    ({ item with elevation := elevation }, item.altitude + elevation)
  else (item, item.altitude)

/-- The optional fields accepted by Layer3D.modifyMesh (Partial of MeshOptions,
scale restricted to a number as in the Layer3D options type). -/
structure LayerMeshModifyOptions where
  visible : Option Bool := none
  lngLat : Option LngLat := none
  scale : Option ℤ := none
  altitude : Option ℤ := none
  altitudeReference : Option AltitudeReference := none
  heading : Option ℤ := none
  opacity : Option ℤ := none
  pointSize : Option ℤ := none
  wireframe : Option Bool := none
deriving DecidableEq

/-- Layer3D.modifyMesh, for the item found in the registry: each present option
overwrites its target in place, a lngLat or altitudeReference change resamples
the terrain elevation (an altitude change does not), a scale or heading change
recomputes the additional transformation matrix, and a repaint is always
requested at the end.  Returns the item, the list of points at which the
terrain elevation was queried, and the repaint flag. -/
def modifyMeshItem {M : Type} (getTM : ℤ → ℤ → SourceOrientation → M)
    (queryTerrainElevation : LngLat → Option ℤ)
    (item : LayerItem M) (options : LayerMeshModifyOptions) :
    LayerItem M × List LngLat × Bool :=
  match item.mesh with
  | none => (item, [], false)
  | some mesh =>
    let lngLat := options.lngLat.getD item.lngLat
    let scale := options.scale.getD item.scale
    let heading := options.heading.getD item.heading
    let isTransformNeedUpdate := options.scale.isSome || options.heading.isSome
    let queried :=
      (match options.lngLat with | some ll => [ll] | none => []) ++
      (match options.altitudeReference with | some _ => [lngLat] | none => [])
    let elevation :=
      match options.altitudeReference with
      | some _ => (queryTerrainElevation lngLat).getD 0
      | none =>
        match options.lngLat with
        | some ll => (queryTerrainElevation ll).getD 0
        | none => item.elevation
    ({ item with
        mesh := some
          { mesh with
              visible := options.visible.getD mesh.visible,
              materialOpacity := options.opacity.getD mesh.materialOpacity,
              materialTransparent :=
                if options.opacity.isSome then true else mesh.materialTransparent,
              materialPointSize := options.pointSize.getD mesh.materialPointSize,
              materialWireframe := options.wireframe.getD mesh.materialWireframe },
        lngLat := lngLat,
        elevation := elevation,
        scale := scale,
        altitude := options.altitude.getD item.altitude,
        altitudeReference := options.altitudeReference.getD item.altitudeReference,
        heading := heading,
        additionalTransformationMatrix :=
          if isTransformNeedUpdate then getTM scale heading item.sourceOrientation
          else item.additionalTransformationMatrix },
      queried, true)

/-- Errors thrown by the add operations of Layer3D. -/
inductive AddError
  | duplicateId (id : String)
  | unsupportedFileFormat (url : String)
deriving DecidableEq, Repr

/-- The item registry of a layer (Layer3D.items3D), a JavaScript Map keyed by
item id. -/
structure Layer3DRegistry (M : Type) where
  items3D : List (String × LayerItem M)
deriving DecidableEq

/-- The arguments of Layer3D.addMeshInternal: the item id, the mesh being
added, and the optional mesh options. -/
structure AddMeshArgs where
  id : String
  mesh : MeshObject
  lngLat : Option LngLat := none
  altitude : Option ℤ := none
  altitudeReference : Option AltitudeReference := none
  visible : Option Bool := none
  sourceOrientation : Option SourceOrientation := none
  scale : Option ℤ := none
  heading : Option ℤ := none
  opacity : Option ℤ := none
  pointSize : Option ℤ := none
  wireframe : Option Bool := none
deriving DecidableEq

/-- Layer3D.addMeshInternal: throwUniqueID first (duplicate id aborts before
any mutation), then defaulting of the options, material application to the
mesh, computation of the transformation matrix and of the initial terrain
elevation, and registration of the new item in the registry. -/
def addMeshInternal {M : Type} (getTM : ℤ → ℤ → SourceOrientation → M)
    (queryTerrainElevation : LngLat → Option ℤ)
    (l : Layer3DRegistry M) (args : AddMeshArgs) :
    Option AddError × Layer3DRegistry M :=
  if jsMapHas l.items3D args.id then (some (.duplicateId args.id), l)
  else
    let sourceOrientation := args.sourceOrientation.getD SourceOrientation.Y_UP
    let altitude := args.altitude.getD 0
    let lngLat := args.lngLat.getD ⟨0, 0⟩
    let heading := args.heading.getD 0
    let visible := args.visible.getD true
    let opacity := args.opacity.getD 1
    let scale := args.scale.getD 1
    let pointSize := args.pointSize.getD 1
    let wireframe := args.wireframe.getD false
    let mesh : MeshObject :=
      { visible := visible,
        materialOpacity := if opacity ≠ 1 then opacity else args.mesh.materialOpacity,
        materialTransparent := if opacity ≠ 1 then true else args.mesh.materialTransparent,
        materialPointSize := if args.pointSize.isSome then pointSize
                             else args.mesh.materialPointSize,
        materialWireframe := if args.wireframe.isSome then wireframe
                             else args.mesh.materialWireframe }
    let additionalTransformationMatrix := getTM scale heading sourceOrientation
    let elevation := (queryTerrainElevation lngLat).getD 0
    let item : LayerItem M :=
      { id := args.id, mesh := some mesh, lngLat := lngLat, altitude := altitude,
        scale := scale, heading := heading, sourceOrientation := sourceOrientation,
        altitudeReference := args.altitudeReference.getD AltitudeReference.GROUND,
        elevation := elevation, opacity := opacity, pointSize := pointSize,
        wireframe := wireframe,
        additionalTransformationMatrix := additionalTransformationMatrix }
    (none, ⟨jsMapSet l.items3D args.id item⟩)

/-- Layer3D.addMeshFromURL before the asynchronous load: throwUniqueID, then the
file-extension check on the trimmed, lower-cased URL; only glb and gltf pass. -/
def addMeshFromURLValidate {M : Type} (l : Layer3DRegistry M) (id url : String) :
    Option AddError :=
  if jsMapHas l.items3D id then some (.duplicateId id)
  else
    let fileExt := ((url.trim.toLower).splitOn ".").getLast?.getD ""
    if fileExt = "glb" ∨ fileExt = "gltf" then none
    else some (.unsupportedFileFormat url)

/-- Layer3D.addMeshFromURL after the await of the loader: the loaded mesh is
registered through addMeshInternal, whose own throwUniqueID runs again against
the registry as it stands at completion time. -/
def addMeshFromURLComplete {M : Type} (getTM : ℤ → ℤ → SourceOrientation → M)
    (queryTerrainElevation : LngLat → Option ℤ)
    (lAtCompletion : Layer3DRegistry M) (args : AddMeshArgs) :
    Option AddError × Layer3DRegistry M :=
  addMeshInternal getTM queryTerrainElevation lAtCompletion args

theorem jsMapGet_set_self {α : Type} (m : List (String × α)) (k : String) (v : α) :
    jsMapGet (jsMapSet m k v) k = some v := by
  induction m with
  | nil => simp [jsMapSet, jsMapGet]
  | cons p rest ih =>
    by_cases hk : p.1 = k <;> simp [jsMapSet, hk, jsMapGet, ih]

theorem addMeshInternal_of_not_has {M : Type} (getTM : ℤ → ℤ → SourceOrientation → M)
    (q : LngLat → Option ℤ) (l : Layer3DRegistry M) (args : AddMeshArgs)
    (h : jsMapHas l.items3D args.id = false) :
    ∃ item, addMeshInternal getTM q l args = (none, ⟨jsMapSet l.items3D args.id item⟩) := by
  unfold addMeshInternal
  rw [h]
  simp only [Bool.false_eq_true, if_false]
  exact ⟨_, rfl⟩

theorem addMeshInternal_of_has {M : Type} (getTM : ℤ → ℤ → SourceOrientation → M)
    (q : LngLat → Option ℤ) (l : Layer3DRegistry M) (args : AddMeshArgs)
    (h : jsMapHas l.items3D args.id = true) :
    addMeshInternal getTM q l args = (some (.duplicateId args.id), l) := by
  simp [addMeshInternal, h]

/-- C1: for every item placed during a render pass, the effective altitude is
the raw altitude when the altitude reference is MEAN_SEA_LEVEL, and the raw
altitude plus the most recently sampled terrain elevation at the item location
when the reference is GROUND (the stored elevation, resampled first when the
host signals terrain animation); moreover, modifying lngLat and altitude and
then rendering places a GROUND item at the new altitude plus the elevation
sampled at the new position, and a MEAN_SEA_LEVEL item at the new altitude. -/
theorem c1_effective_altitude {M : Type} (getTM : ℤ → ℤ → SourceOrientation → M)
    (q : LngLat → Option ℤ) (u : Bool) (it : LayerItem M) (ll : LngLat) (alt : ℤ) :
    (it.altitudeReference = AltitudeReference.MEAN_SEA_LEVEL →
      (prepareRenderItemAltitude u q it).2 = it.altitude) ∧
    (it.altitudeReference = AltitudeReference.GROUND →
      (prepareRenderItemAltitude u q it).2
        = it.altitude + (prepareRenderItemAltitude u q it).1.elevation ∧
      (prepareRenderItemAltitude u q it).1.elevation
        = if u then (q it.lngLat).getD 0 else it.elevation) ∧
    (∀ ms, it.mesh = some ms → it.altitudeReference = AltitudeReference.GROUND →
      (prepareRenderItemAltitude false q
        ((modifyMeshItem getTM q it { lngLat := some ll, altitude := some alt }).1)).2
        = alt + (q ll).getD 0) ∧
    (∀ ms, it.mesh = some ms → it.altitudeReference = AltitudeReference.MEAN_SEA_LEVEL →
      (prepareRenderItemAltitude false q
        ((modifyMeshItem getTM q it { lngLat := some ll, altitude := some alt }).1)).2
        = alt) := by
  refine ⟨fun h => ?_, fun h => ?_, fun ms hms h => ?_, fun ms hms h => ?_⟩
  · simp [prepareRenderItemAltitude, h]
  · simp [prepareRenderItemAltitude, h]
  · simp [modifyMeshItem, hms, prepareRenderItemAltitude, h]
  · simp [modifyMeshItem, hms, prepareRenderItemAltitude, h]

/-- Transformation-matrix stub used by concrete witnesses that do not inspect
the matrix. -/
def unitTM : ℤ → ℤ → SourceOrientation → Unit := fun _ _ _ => ()

/-- A terrain sampler returning elevation 5 everywhere. -/
def flatQuery5 : LngLat → Option ℤ := fun _ => some 5

/-- A plain mesh object with default material state. -/
def plainMesh : MeshObject :=
  { visible := true, materialOpacity := 1, materialTransparent := false,
    materialPointSize := 1, materialWireframe := false }

/-- A GROUND-referenced item at altitude 10 whose stored elevation is 5. -/
def groundItem10 : LayerItem Unit :=
  { id := "m1", mesh := some plainMesh, lngLat := ⟨0, 0⟩, altitude := 10, scale := 1,
    heading := 0, sourceOrientation := .Y_UP, altitudeReference := .GROUND,
    elevation := 5, opacity := 1, pointSize := 1, wireframe := false,
    additionalTransformationMatrix := () }

/-- The same item referenced to mean sea level. -/
def seaItem10 : LayerItem Unit :=
  { groundItem10 with altitudeReference := .MEAN_SEA_LEVEL }

theorem c1_effective_altitude_witness :
    (prepareRenderItemAltitude false flatQuery5 groundItem10).2 = 15 ∧
    (prepareRenderItemAltitude false flatQuery5 seaItem10).2 = 10 ∧
    (prepareRenderItemAltitude false flatQuery5
      ((modifyMeshItem unitTM flatQuery5 groundItem10
        { lngLat := some ⟨0, 0⟩, altitude := some 10 }).1)).2 = 15 ∧
    (prepareRenderItemAltitude false flatQuery5
      ((modifyMeshItem unitTM flatQuery5 seaItem10
        { lngLat := some ⟨0, 0⟩, altitude := some 10 }).1)).2 = 10 := by
  obtain ⟨_, h2, h3, _⟩ :=
    c1_effective_altitude unitTM flatQuery5 false groundItem10 ⟨0, 0⟩ 10
  obtain ⟨g1, _, _, g4⟩ :=
    c1_effective_altitude unitTM flatQuery5 false seaItem10 ⟨0, 0⟩ 10
  refine ⟨?_, ?_, ?_, g4 plainMesh rfl rfl⟩
  · rw [(h2 rfl).1, (h2 rfl).2]; decide
  · rw [g1 rfl]; rfl
  · exact (h3 plainMesh rfl rfl).trans (by decide)

/-- C6: adding an item whose id already exists in the layer throws before any
mutation: after a successful first add, a second add with the same id returns
the duplicate-id error and leaves the registry, including its item count,
exactly as it was after the first add. -/
theorem c6_duplicate_add_throws {M : Type} (getTM : ℤ → ℤ → SourceOrientation → M)
    (q : LngLat → Option ℤ) (l : Layer3DRegistry M) (args args2 : AddMeshArgs)
    (h0 : jsMapGet l.items3D args.id = none) (h1 : args2.id = args.id) :
    (addMeshInternal getTM q l args).1 = none ∧
    jsMapHas (addMeshInternal getTM q l args).2.items3D args.id = true ∧
    addMeshInternal getTM q (addMeshInternal getTM q l args).2 args2
      = (some (AddError.duplicateId args.id), (addMeshInternal getTM q l args).2) ∧
    (addMeshInternal getTM q (addMeshInternal getTM q l args).2 args2).2.items3D.length
      = (addMeshInternal getTM q l args).2.items3D.length := by
  have hhas : jsMapHas l.items3D args.id = false := by simp [jsMapHas, h0]
  obtain ⟨item, heq⟩ := addMeshInternal_of_not_has getTM q l args hhas
  have hhas2 : jsMapHas (addMeshInternal getTM q l args).2.items3D args.id = true := by
    rw [heq]
    simp [jsMapHas, jsMapGet_set_self]
  have hsecond : addMeshInternal getTM q (addMeshInternal getTM q l args).2 args2
      = (some (AddError.duplicateId args.id), (addMeshInternal getTM q l args).2) := by
    have := addMeshInternal_of_has getTM q (addMeshInternal getTM q l args).2 args2
      (by rw [h1]; exact hhas2)
    rw [this, h1]
  exact ⟨by rw [heq], hhas2, hsecond, by rw [hsecond]⟩

/-- Empty-registry and duplicate-argument fixtures for the C6 witness. -/
def emptyRegistry : Layer3DRegistry Unit := ⟨[]⟩

/-- Arguments adding a mesh under the id m1. -/
def addArgsM1 : AddMeshArgs := { id := "m1", mesh := plainMesh }

/-- A second set of arguments reusing the id m1. -/
def addArgsM1Again : AddMeshArgs := { id := "m1", mesh := plainMesh, altitude := some 3 }

theorem c6_duplicate_add_throws_witness :
    (addMeshInternal unitTM flatQuery5 emptyRegistry addArgsM1).1 = none ∧
    jsMapHas (addMeshInternal unitTM flatQuery5 emptyRegistry addArgsM1).2.items3D "m1"
      = true ∧
    addMeshInternal unitTM flatQuery5
        (addMeshInternal unitTM flatQuery5 emptyRegistry addArgsM1).2 addArgsM1Again
      = (some (AddError.duplicateId "m1"),
        (addMeshInternal unitTM flatQuery5 emptyRegistry addArgsM1).2) ∧
    (addMeshInternal unitTM flatQuery5
        (addMeshInternal unitTM flatQuery5 emptyRegistry addArgsM1).2
        addArgsM1Again).2.items3D.length
      = (addMeshInternal unitTM flatQuery5 emptyRegistry addArgsM1).2.items3D.length :=
  c6_duplicate_add_throws unitTM flatQuery5 emptyRegistry addArgsM1 addArgsM1Again
    (by decide) (by decide)

/-- C9: item-id uniqueness survives the asynchronous mesh load: the validation
run before the load throws on a registry already containing the id, the
registration run after the await throws again (registering nothing) if the id
appeared while the load was in flight, and addMeshInternal preserves
distinctness of the registry keys, so the registry never holds two items under
one id. -/
theorem c9_async_unique {M : Type} (getTM : ℤ → ℤ → SourceOrientation → M)
    (q : LngLat → Option ℤ) :
    (∀ (l : Layer3DRegistry M) (id url : String),
      jsMapHas l.items3D id = true → (addMeshFromURLValidate l id url).isSome = true) ∧
    (∀ (l2 : Layer3DRegistry M) (args : AddMeshArgs),
      jsMapHas l2.items3D args.id = true →
        addMeshFromURLComplete getTM q l2 args
          = (some (AddError.duplicateId args.id), l2)) ∧
    (∀ (l2 : Layer3DRegistry M) (args : AddMeshArgs),
      (l2.items3D.map Prod.fst).Nodup →
        ((addMeshFromURLComplete getTM q l2 args).2.items3D.map Prod.fst).Nodup) := by
  refine ⟨fun l id url h => ?_, fun l2 args h => ?_, fun l2 args hn => ?_⟩
  · simp [addMeshFromURLValidate, h]
  · exact addMeshInternal_of_has getTM q l2 args h
  · rcases hh : jsMapHas l2.items3D args.id with _ | _
    · obtain ⟨item, heq⟩ := addMeshInternal_of_not_has getTM q l2 args hh
      rw [addMeshFromURLComplete, heq]
      exact jsMapSet_keys_nodup item hn
    · rw [addMeshFromURLComplete, addMeshInternal_of_has getTM q l2 args hh]
      exact hn

/-- A registry already holding the id m1, as it may stand when an in-flight
load completes. -/
def registryWithM1 : Layer3DRegistry Unit := ⟨[("m1", groundItem10)]⟩

theorem c9_async_unique_witness :
    (addMeshFromURLValidate registryWithM1 "m1" "https://assets.test/model.glb").isSome
      = true ∧
    addMeshFromURLComplete unitTM flatQuery5 registryWithM1 addArgsM1
      = (some (AddError.duplicateId "m1"), registryWithM1) ∧
    ((addMeshFromURLComplete unitTM flatQuery5 registryWithM1
        addArgsM1).2.items3D.map Prod.fst).Nodup := by
  obtain ⟨a, b, c⟩ := c9_async_unique unitTM flatQuery5
  exact ⟨a registryWithM1 "m1" "https://assets.test/model.glb" (by decide),
    b registryWithM1 addArgsM1 (by decide),
    c registryWithM1 addArgsM1 (by decide)⟩

/-! ## WebGLRenderManager: singleton, layer registry, animation loops -/

/-- The state of the WebGLRenderManager: the layer registry (layerData, keyed
by layer id, entries abstracted by L), the animation-loop registry (keyed by
animation id, callbacks abstracted by C), and whether dispose() has been
called on the single Three.js renderer that the constructor created. -/
structure WebGLRenderManagerState (L C : Type) where
  layerData : List (String × L)
  animationLoops : List (String × C)
  rendererDisposed : Bool
deriving DecidableEq

/-- WebGLRenderManager.handleAddLayer: registers (or re-registers) the layer
under its id; no uniqueness check, re-registration overwrites. -/
def handleAddLayer {L C : Type} (m : WebGLRenderManagerState L C) (id : String)
    (layer : L) : WebGLRenderManagerState L C :=
  { m with layerData := jsMapSet m.layerData id layer }

/-- WebGLRenderManager.dispose(layerID): drop the layer from layerData; when
the registry becomes empty, dispose the renderer (and remove the manager layer
from the map). -/
def WebGLRenderManagerState.dispose {L C : Type} (m : WebGLRenderManagerState L C)
    (layerID : String) : WebGLRenderManagerState L C :=
  let layerData := jsMapDelete m.layerData layerID
  if layerData.length = 0 then
    { m with layerData := layerData, rendererDisposed := true }
  else
    { m with layerData := layerData }

/-- WebGLRenderManager.addAnimationLoop: register a callback under an id; a
no-op when the id is already registered. -/
def addAnimationLoop {L C : Type} (m : WebGLRenderManagerState L C)
    (animationID : String) (callback : C) : WebGLRenderManagerState L C :=
  if jsMapHas m.animationLoops animationID then m
  else { m with animationLoops := jsMapSet m.animationLoops animationID callback }

/-- WebGLRenderManager.removeAnimationLoop(layerID): look the id up in
layerData and return untouched when it is not a registered layer id; only
otherwise delete the animation loop stored under that id. -/
def removeAnimationLoop {L C : Type} (m : WebGLRenderManagerState L C)
    (layerID : String) : WebGLRenderManagerState L C :=
  match jsMapGet m.layerData layerID with
  | none => m
  | some _ => { m with animationLoops := jsMapDelete m.animationLoops layerID }

/-- The module-level singleton variable webGLRenderManager, together with a
count of how many WebGLRenderer instances have been constructed in the
process. -/
structure WebGLGlobal (L C : Type) where
  manager : Option (WebGLRenderManagerState L C)
  renderersCreated : ℕ
deriving DecidableEq

/-- addLayerToWebGLRenderManager: lazily construct the singleton manager (the
constructor creates the one renderer) when absent, then register the layer
with it. -/
def addLayerToWebGLRenderManager {L C : Type} (g : WebGLGlobal L C) (id : String)
    (layer : L) : WebGLGlobal L C :=
  match g.manager with
  | none =>
    { manager := some (handleAddLayer ⟨[], [], false⟩ id layer),
      renderersCreated := g.renderersCreated + 1 }
  | some m => { g with manager := some (handleAddLayer m id layer) }

/-- Layer3D.onRemove: the detaching layer asks the manager to dispose of it. -/
def disposeLayer {L C : Type} (g : WebGLGlobal L C) (id : String) : WebGLGlobal L C :=
  match g.manager with
  | none => g
  | some m => { g with manager := some (m.dispose id) }

/-- C5: at most one render manager (and one renderer) exists per process:
attaching two layers from a state with no manager constructs exactly one
renderer, attaching to an existing manager constructs none, detaching a layer
that leaves the registry non-empty keeps the renderer undisposed, and
detaching the last registered layer disposes the renderer. -/
theorem c5_render_manager_singleton {L C : Type} (g : WebGLGlobal L C)
    (id1 id2 delId : String) (l1 l2 : L) :
    (g.manager = none →
      (addLayerToWebGLRenderManager (addLayerToWebGLRenderManager g id1 l1)
          id2 l2).renderersCreated = g.renderersCreated + 1 ∧
      (addLayerToWebGLRenderManager (addLayerToWebGLRenderManager g id1 l1)
          id2 l2).manager.isSome = true) ∧
    (∀ m, g.manager = some m →
      (addLayerToWebGLRenderManager g id1 l1).renderersCreated = g.renderersCreated) ∧
    (∀ m, g.manager = some m → jsMapDelete m.layerData delId ≠ [] →
      (disposeLayer g delId).manager
        = some { m with layerData := jsMapDelete m.layerData delId }) ∧
    (∀ m, g.manager = some m → jsMapDelete m.layerData delId = [] →
      (disposeLayer g delId).manager
        = some { m with layerData := [], rendererDisposed := true }) := by
  refine ⟨fun h => ?_, fun m h => ?_, fun m h hne => ?_, fun m h hnil => ?_⟩
  · simp [addLayerToWebGLRenderManager, h]
  · simp [addLayerToWebGLRenderManager, h]
  · have hlen : ¬(jsMapDelete m.layerData delId).length = 0 := by
      simpa [List.length_eq_zero] using hne
    simp [disposeLayer, h, WebGLRenderManagerState.dispose, hlen]
  · simp [disposeLayer, h, WebGLRenderManagerState.dispose, hnil]

theorem c5_render_manager_singleton_witness :
    (addLayerToWebGLRenderManager (addLayerToWebGLRenderManager
        (⟨none, 0⟩ : WebGLGlobal Unit Unit) "layer-a" ()) "layer-b" ()).renderersCreated
      = 1 ∧
    (disposeLayer
        (⟨some ⟨[("layer-a", ()), ("layer-b", ())], [], false⟩, 1⟩ :
          WebGLGlobal Unit Unit) "layer-a").manager
      = some ⟨[("layer-b", ())], [], false⟩ ∧
    (disposeLayer
        (⟨some ⟨[("layer-b", ())], [], false⟩, 1⟩ : WebGLGlobal Unit Unit)
        "layer-b").manager
      = some ⟨[], [], true⟩ := by
  refine ⟨((c5_render_manager_singleton (⟨none, 0⟩ : WebGLGlobal Unit Unit)
      "layer-a" "layer-b" "x" () ()).1 rfl).1, ?_, ?_⟩
  · have h := (c5_render_manager_singleton
        (⟨some ⟨[("layer-a", ()), ("layer-b", ())], [], false⟩, 1⟩ :
          WebGLGlobal Unit Unit) "x" "y" "layer-a" () ()).2.2.1 _ rfl (by decide)
    exact h.trans (by decide)
  · have h := (c5_render_manager_singleton
        (⟨some ⟨[("layer-b", ())], [], false⟩, 1⟩ : WebGLGlobal Unit Unit)
        "x" "y" "layer-b" () ()).2.2.2 _ rfl (by decide)
    exact h.trans (by decide)

/-- The composite id that Item3D.stopAnimation passes to removeAnimationLoop,
built as layerId_itemId_animationName. -/
def compositeAnimationId (layerId itemId animationName : String) : String :=
  layerId ++ "_" ++ itemId ++ "_" ++ animationName

/-- Item3D.stopAnimation: after its guards (an animation map, a mesh, and the
named animation all present) it asks the renderer to remove the loop
registered under the composite id. -/
def stopAnimation {L C : Type} (m : WebGLRenderManagerState L C)
    (hasAnimationMap hasMesh hasAnimation : Bool)
    (layerId itemId animationName : String) : WebGLRenderManagerState L C :=
  if hasAnimationMap && hasMesh && hasAnimation then
    removeAnimationLoop m (compositeAnimationId layerId itemId animationName)
  else m

/-- C10: removeAnimationLoop on any id that is not a key of layerData returns
without modifying the animation-loop map; in particular, when the composite
layerId_itemId_animationName id built by Item3D.stopAnimation is not a layer
id, the corresponding animation callback stays registered. -/
theorem c10_remove_animation_loop_noop {L C : Type} :
    (∀ (m : WebGLRenderManagerState L C) (id : String),
      jsMapGet m.layerData id = none → removeAnimationLoop m id = m) ∧
    (∀ (m : WebGLRenderManagerState L C) (hm hme ha : Bool)
        (layerId itemId animationName : String),
      jsMapGet m.layerData (compositeAnimationId layerId itemId animationName) = none →
      (stopAnimation m hm hme ha layerId itemId animationName).animationLoops
        = m.animationLoops) := by
  constructor
  · intro m id h
    simp [removeAnimationLoop, h]
  · intro m hm hme ha layerId itemId animationName h
    unfold stopAnimation
    split
    · simp [removeAnimationLoop, h]
    · rfl

theorem c10_remove_animation_loop_noop_witness :
    removeAnimationLoop
        (⟨[("layer1", ())], [("layer1_item1_spin", ())], false⟩ :
          WebGLRenderManagerState Unit Unit) "layer1_item1_spin"
      = ⟨[("layer1", ())], [("layer1_item1_spin", ())], false⟩ ∧
    (stopAnimation
        (⟨[("layer1", ())], [("layer1_item1_spin", ())], false⟩ :
          WebGLRenderManagerState Unit Unit)
        true true true "layer1" "item1" "spin").animationLoops
      = [("layer1_item1_spin", ())] := by
  obtain ⟨r, s⟩ := c10_remove_animation_loop_noop (L := Unit) (C := Unit)
  exact ⟨r _ _ (by decide), s _ true true true "layer1" "item1" "spin" (by decide)⟩

/-! ## Item3D: the modify operation and the local transform update -/

/-- A scale passed to Item3D.modify: a number (applied to all three axes) or a
three-component array. -/
inductive ScaleOption
  | num (s : ℤ)
  | arr (s : ℤ × ℤ × ℤ)
deriving DecidableEq, Repr

/-- The mutable state of an Item3D instance that modify reads and writes.  The
mesh and its uniform material state are as in the layer model; the additional
transformation matrix is abstracted by M and produced by the function standing
for getTransformationMatrix. -/
structure Item3DState (M : Type) where
  mesh : Option MeshObject
  lngLat : LngLat
  elevation : ℤ
  altitude : ℤ
  scale : ℤ × ℤ × ℤ
  relativeScale : ℤ × ℤ × ℤ
  heading : ℤ
  sourceOrientation : SourceOrientation
  altitudeReference : AltitudeReference
  opacity : ℤ
  pointSize : ℤ
  wireframe : Bool
  additionalTransformationMatrix : M
deriving DecidableEq

/-- The optional fields accepted by Item3D.modify (Partial of MeshOptions). -/
structure MeshModifyOptions where
  visible : Option Bool := none
  lngLat : Option LngLat := none
  scale : Option ScaleOption := none
  altitude : Option ℤ := none
  altitudeReference : Option AltitudeReference := none
  heading : Option ℤ := none
  opacity : Option ℤ := none
  pointSize : Option ℤ := none
  wireframe : Option Bool := none
deriving DecidableEq

/-- The elementwise product of relativeScale and scale computed inside
Item3D.applyTransformUpdate. -/
def mulScale (a b : ℤ × ℤ × ℤ) : ℤ × ℤ × ℤ :=
  (a.1 * b.1, a.2.1 * b.2.1, a.2.2 * b.2.2)

/-- Item3D.applyTransformUpdate: recompute the additional transformation matrix
from the elementwise product of relativeScale and scale, the heading, and the
source orientation. -/
def applyTransformUpdate {M : Type} (getTM : ℤ × ℤ × ℤ → ℤ → SourceOrientation → M)
    (it : Item3DState M) : Item3DState M :=
  { it with
      additionalTransformationMatrix := getTM (mulScale it.relativeScale it.scale)
        it.heading it.sourceOrientation }

/-- Item3D.modify: returns early when the item has no mesh; otherwise each
present option overwrites its target in place (a field-wise rendering of the
sequential assignments), a lngLat change and an altitudeReference change each
resample the terrain elevation (an altitude change does not), a scale or
heading change triggers applyTransformUpdate (inlined in the matrix field),
the opacity, point-size and wireframe setters run with deferred repaint, and a
host repaint is requested at the end.  Returns the item, the points at which
the terrain elevation was queried, and the repaint flag. -/
def Item3D.modify {M : Type} (getTM : ℤ × ℤ × ℤ → ℤ → SourceOrientation → M)
    (queryTerrainElevation : LngLat → Option ℤ)
    (it : Item3DState M) (options : MeshModifyOptions) :
    Item3DState M × List LngLat × Bool :=
  match it.mesh with
  | none => (it, [], false)
  | some mesh =>
    let lngLat := options.lngLat.getD it.lngLat
    let scale :=
      match options.scale with
      | some (.num s) => (s, s, s)
      | some (.arr a) => a
      | none => it.scale
    let heading := options.heading.getD it.heading
    let isTransformNeedUpdate := options.scale.isSome || options.heading.isSome
    let queried :=
      (match options.lngLat with | some ll => [ll] | none => []) ++
      (match options.altitudeReference with | some _ => [lngLat] | none => [])
    let elevation :=
      match options.altitudeReference with
      | some _ => (queryTerrainElevation lngLat).getD 0
      | none =>
        match options.lngLat with
        | some ll => (queryTerrainElevation ll).getD 0
        | none => it.elevation
    ({ it with
        mesh := some
          { mesh with
              visible := options.visible.getD mesh.visible,
              materialOpacity := options.opacity.getD mesh.materialOpacity,
              materialTransparent :=
                if options.opacity.isSome then true else mesh.materialTransparent,
              materialPointSize := options.pointSize.getD mesh.materialPointSize,
              materialWireframe := options.wireframe.getD mesh.materialWireframe },
        lngLat := lngLat,
        elevation := elevation,
        scale := scale,
        altitude := options.altitude.getD it.altitude,
        altitudeReference := options.altitudeReference.getD it.altitudeReference,
        heading := heading,
        pointSize := options.pointSize.getD it.pointSize,
        wireframe := options.wireframe.getD it.wireframe,
        additionalTransformationMatrix :=
          if isTransformNeedUpdate then
            getTM (mulScale it.relativeScale scale) heading it.sourceOrientation
          else it.additionalTransformationMatrix },
      queried, true)

/-- C7 (amended): for an item with a mesh, every property whose option is
omitted is left unchanged by modify; changes to position or altitude-reference
trigger a terrain-elevation resample (a change to altitude alone does not);
changes to scale or heading trigger a recomputation of the local transform
matrix; and a host repaint is requested at the end (modify on an item without
a mesh returns early and requests none). -/
theorem c7_modify_frame_and_effects {M : Type}
    (getTM : ℤ × ℤ × ℤ → ℤ → SourceOrientation → M)
    (q : LngLat → Option ℤ) (it : Item3DState M) (o : MeshModifyOptions)
    (ms : MeshObject) (hms : it.mesh = some ms) :
    (Item3D.modify getTM q it o).2.2 = true ∧
    (o.lngLat = none → (Item3D.modify getTM q it o).1.lngLat = it.lngLat) ∧
    (o.lngLat = none → o.altitudeReference = none →
      (Item3D.modify getTM q it o).1.elevation = it.elevation ∧
      (Item3D.modify getTM q it o).2.1 = []) ∧
    (o.altitude = none → (Item3D.modify getTM q it o).1.altitude = it.altitude) ∧
    (o.altitudeReference = none →
      (Item3D.modify getTM q it o).1.altitudeReference = it.altitudeReference) ∧
    (o.heading = none → (Item3D.modify getTM q it o).1.heading = it.heading) ∧
    (o.scale = none → (Item3D.modify getTM q it o).1.scale = it.scale) ∧
    (o.visible = none →
      (Item3D.modify getTM q it o).1.mesh.map MeshObject.visible
        = it.mesh.map MeshObject.visible) ∧
    (o.opacity = none →
      (Item3D.modify getTM q it o).1.mesh.map MeshObject.materialOpacity
        = it.mesh.map MeshObject.materialOpacity) ∧
    (o.pointSize = none →
      (Item3D.modify getTM q it o).1.pointSize = it.pointSize ∧
      (Item3D.modify getTM q it o).1.mesh.map MeshObject.materialPointSize
        = it.mesh.map MeshObject.materialPointSize) ∧
    (o.wireframe = none →
      (Item3D.modify getTM q it o).1.wireframe = it.wireframe ∧
      (Item3D.modify getTM q it o).1.mesh.map MeshObject.materialWireframe
        = it.mesh.map MeshObject.materialWireframe) ∧
    (o.scale = none → o.heading = none →
      (Item3D.modify getTM q it o).1.additionalTransformationMatrix
        = it.additionalTransformationMatrix) ∧
    (∀ ll, o.lngLat = some ll → ll ∈ (Item3D.modify getTM q it o).2.1) ∧
    (o.altitudeReference.isSome = true →
      o.lngLat.getD it.lngLat ∈ (Item3D.modify getTM q it o).2.1) ∧
    ((o.scale.isSome || o.heading.isSome) = true →
      (Item3D.modify getTM q it o).1.additionalTransformationMatrix
        = getTM (mulScale it.relativeScale (Item3D.modify getTM q it o).1.scale)
            (Item3D.modify getTM q it o).1.heading it.sourceOrientation) := by
  refine ⟨?_, ?_, ?_, ?_, ?_, ?_, ?_, ?_, ?_, ?_, ?_, ?_, ?_, ?_, ?_⟩
  · simp [Item3D.modify, hms]
  · intro h; simp [Item3D.modify, hms, h]
  · intro h h2; simp [Item3D.modify, hms, h, h2]
  · intro h; simp [Item3D.modify, hms, h]
  · intro h; simp [Item3D.modify, hms, h]
  · intro h; simp [Item3D.modify, hms, h]
  · intro h; simp [Item3D.modify, hms, h]
  · intro h; simp [Item3D.modify, hms, h]
  · intro h; simp [Item3D.modify, hms, h]
  · intro h; simp [Item3D.modify, hms, h]
  · intro h; simp [Item3D.modify, hms, h]
  · intro h h2; simp [Item3D.modify, hms, h, h2]
  · intro ll h; simp [Item3D.modify, hms, h]
  · intro h
    rcases ho : o.altitudeReference with _ | r
    · rw [ho] at h; simp at h
    · simp [Item3D.modify, hms, ho]
  · intro h; simp [Item3D.modify, hms, h]

/-- Transformation-matrix stub over triple scales, for concrete witnesses. -/
def unitTM3 : ℤ × ℤ × ℤ → ℤ → SourceOrientation → Unit := fun _ _ _ => ()

/-- A terrain sampler that now returns elevation 7 everywhere. -/
def terrainNow7 : LngLat → Option ℤ := fun _ => some 7

/-- An Item3D instance with a mesh, stored elevation 5, GROUND reference. -/
def c7Item : Item3DState Unit :=
  { mesh := some plainMesh, lngLat := ⟨0, 0⟩, elevation := 5, altitude := 10,
    scale := (1, 1, 1), relativeScale := (1, 1, 1), heading := 0,
    sourceOrientation := .Y_UP, altitudeReference := .GROUND, opacity := 1,
    pointSize := 1, wireframe := false, additionalTransformationMatrix := () }

/-- C7 (counterexample): modify with only an altitude change performs no
terrain-elevation query and leaves the stored elevation at 5, even though the
sampler would now return 7 at the item position — contrary to the claim that
an altitude change triggers a resample. -/
theorem c7_altitude_no_resample_counterexample :
    (Item3D.modify unitTM3 terrainNow7 c7Item { altitude := some 3 }).2.1 = [] ∧
    (Item3D.modify unitTM3 terrainNow7 c7Item { altitude := some 3 }).1.elevation = 5 ∧
    terrainNow7 c7Item.lngLat = some 7 ∧
    (Item3D.modify unitTM3 terrainNow7 c7Item { altitude := some 3 }).1.altitude = 3 := by
  decide

theorem c7_modify_frame_and_effects_witness :
    (Item3D.modify unitTM3 terrainNow7 c7Item { altitude := some 3 }).2.2 = true ∧
    (Item3D.modify unitTM3 terrainNow7 c7Item { altitude := some 3 }).1.lngLat
      = c7Item.lngLat ∧
    (Item3D.modify unitTM3 terrainNow7 c7Item { altitude := some 3 }).1.elevation
      = c7Item.elevation ∧
    (Item3D.modify unitTM3 terrainNow7 c7Item { altitude := some 3
      }).1.additionalTransformationMatrix = c7Item.additionalTransformationMatrix ∧
    (⟨1, 2⟩ : LngLat) ∈ (Item3D.modify unitTM3 terrainNow7 c7Item
      { lngLat := some ⟨1, 2⟩, heading := some 90 }).2.1 ∧
    (Item3D.modify unitTM3 terrainNow7 c7Item
        { lngLat := some ⟨1, 2⟩, heading := some 90 }).1.additionalTransformationMatrix
      = unitTM3 (mulScale c7Item.relativeScale
          (Item3D.modify unitTM3 terrainNow7 c7Item
            { lngLat := some ⟨1, 2⟩, heading := some 90 }).1.scale)
          (Item3D.modify unitTM3 terrainNow7 c7Item
            { lngLat := some ⟨1, 2⟩, heading := some 90 }).1.heading
          c7Item.sourceOrientation := by
  obtain ⟨h1, h2, h3, _, _, _, _, _, _, _, _, h12, _, _, _⟩ :=
    c7_modify_frame_and_effects unitTM3 terrainNow7 c7Item { altitude := some 3 }
      plainMesh rfl
  obtain ⟨_, _, _, _, _, _, _, _, _, _, _, _, g13, _, g15⟩ :=
    c7_modify_frame_and_effects unitTM3 terrainNow7 c7Item
      { lngLat := some ⟨1, 2⟩, heading := some 90 } plainMesh rfl
  exact ⟨h1, h2 rfl, (h3 rfl rfl).1, h12 rfl rfl, g13 ⟨1, 2⟩ rfl, g15 rfl⟩

/-! ## The composed local transform (src/utils.ts, getTransformationMatrix) -/

/-- Matrix4.makeScale restricted to its rotational 3 by 3 block: the diagonal
scale matrix. -/
noncomputable def makeScale (scale : ℤ × ℤ × ℤ) : Matrix (Fin 3) (Fin 3) ℝ :=
  Matrix.diagonal ![(scale.1 : ℝ), (scale.2.1 : ℝ), (scale.2.2 : ℝ)]

/-- Matrix4.makeRotationX restricted to its 3 by 3 block. -/
noncomputable def makeRotationX (θ : ℝ) : Matrix (Fin 3) (Fin 3) ℝ :=
  !![1, 0, 0; 0, Real.cos θ, -Real.sin θ; 0, Real.sin θ, Real.cos θ]

/-- Matrix4.makeRotationY restricted to its 3 by 3 block. -/
noncomputable def makeRotationY (θ : ℝ) : Matrix (Fin 3) (Fin 3) ℝ :=
  !![Real.cos θ, 0, Real.sin θ; 0, 1, 0; -Real.sin θ, 0, Real.cos θ]

/-- Matrix4.makeRotationZ restricted to its 3 by 3 block. -/
noncomputable def makeRotationZ (θ : ℝ) : Matrix (Fin 3) (Fin 3) ℝ :=
  !![Real.cos θ, -Real.sin θ, 0; Real.sin θ, Real.cos θ, 0; 0, 0, 1]

/-- sourceOrientationToQuaternion composed with makeRotationFromQuaternion:
X_UP is a rotation of minus a quarter turn about the z axis, Y_UP the
identity, Z_UP a rotation of minus a quarter turn about the x axis. -/
noncomputable def sourceOrientationMatrix :
    SourceOrientation → Matrix (Fin 3) (Fin 3) ℝ
  | .X_UP => makeRotationZ (-(Real.pi / 2))
  | .Y_UP => 1
  | .Z_UP => makeRotationX (-(Real.pi / 2))

/-- MathUtils.degToRad. -/
noncomputable def degToRad (deg : ℤ) : ℝ := (deg : ℝ) * Real.pi / 180

/-- utils.getTransformationMatrix: starting from the identity matrix,
post-multiply by the scale matrix, then by the source-orientation matrix, then
by the heading matrix (a rotation about Y by minus the heading, converted to
radians). -/
noncomputable def getTransformationMatrix (scale : ℤ × ℤ × ℤ) (heading : ℤ)
    (orientation : SourceOrientation) : Matrix (Fin 3) (Fin 3) ℝ :=
  let scaleMatrix := makeScale scale
  let orientationMatrix := sourceOrientationMatrix orientation
  let headingMatrix := makeRotationY (degToRad (-heading))
  1 * scaleMatrix * orientationMatrix * headingMatrix

/-- C8 (amended): the composed local transform matrix written by
applyTransformUpdate equals the product scale times source-orientation
correction times heading, in that multiplication order (not scale times
heading times orientation as claimed), where the scale factor is the
elementwise product of relative scale and scale. -/
theorem c8_transform_composition (it : Item3DState (Matrix (Fin 3) (Fin 3) ℝ)) :
    (applyTransformUpdate getTransformationMatrix it).additionalTransformationMatrix
      = makeScale (mulScale it.relativeScale it.scale)
        * sourceOrientationMatrix it.sourceOrientation
        * makeRotationY (degToRad (-it.heading)) := by
  simp [applyTransformUpdate, getTransformationMatrix]

theorem degToRad_neg_ninety : degToRad (-90) = -(Real.pi / 2) := by
  unfold degToRad
  push_cast
  ring

theorem cos_degToRad_neg_ninety : Real.cos (degToRad (-90)) = 0 := by
  rw [degToRad_neg_ninety, Real.cos_neg, Real.cos_pi_div_two]

theorem sin_degToRad_neg_ninety : Real.sin (degToRad (-90)) = -1 := by
  rw [degToRad_neg_ninety, Real.sin_neg, Real.sin_pi_div_two]

theorem makeScale_one : makeScale (1, 1, 1) = 1 := by
  unfold makeScale
  have h : (![((1 : ℤ) : ℝ), ((1 : ℤ) : ℝ), ((1 : ℤ) : ℝ)]) = fun _ => (1 : ℝ) := by
    funext i
    fin_cases i <;> norm_num
  rw [h, Matrix.diagonal_one]

/-- C8 (counterexample): at unit scale, heading 90 degrees and a Z-up source
orientation, the matrix computed by getTransformationMatrix differs from the
product scale times heading times orientation stated by the claim: the two
products disagree at entry (0, 1). -/
theorem c8_matrix_order_counterexample :
    getTransformationMatrix (1, 1, 1) 90 SourceOrientation.Z_UP ≠
      makeScale (1, 1, 1) * makeRotationY (degToRad (-90))
        * sourceOrientationMatrix SourceOrientation.Z_UP := by
  have hA : getTransformationMatrix (1, 1, 1) 90 SourceOrientation.Z_UP 0 1 = 0 := by
    show ((1 * makeScale (1, 1, 1) * sourceOrientationMatrix SourceOrientation.Z_UP
      * makeRotationY (degToRad (-90)) : Matrix (Fin 3) (Fin 3) ℝ)) 0 1 = 0
    rw [makeScale_one, mul_one, one_mul]
    simp [sourceOrientationMatrix, makeRotationX, makeRotationY, Matrix.mul_apply,
      Fin.sum_univ_three, cos_degToRad_neg_ninety, sin_degToRad_neg_ninety,
      Real.cos_neg, Real.sin_neg, Real.cos_pi_div_two, Real.sin_pi_div_two]
  have hB : (makeScale (1, 1, 1) * makeRotationY (degToRad (-90))
      * sourceOrientationMatrix SourceOrientation.Z_UP) 0 1 = 1 := by
    rw [makeScale_one, one_mul]
    simp [sourceOrientationMatrix, makeRotationX, makeRotationY, Matrix.mul_apply,
      Fin.sum_univ_three, cos_degToRad_neg_ninety, sin_degToRad_neg_ninety,
      Real.cos_neg, Real.sin_neg, Real.cos_pi_div_two, Real.sin_pi_div_two]
  intro h
  rw [h, hB] at hA
  norm_num at hA
